import Mathlib

set_option linter.unusedVariables false

/-!
Verification development for the aiagent repository (Go).

The repository provides an orchestration engine that turns a prompt plus a
template selection into a concurrently generated set of source files.  The
files present in the source tree are the provider API clients
(package agents, file embedded here as the namespace below), the two command
entry points (cmd/server/main.go for the web server and the maker CLI main),
the static web page, and the Makefile.  The Agent, WorkerPool and EventSink
implementations are referenced by the entry points but their source is not in
the tree; where a claim depends on them, the corresponding definitions are
modelled from the specification and carry a doc comment saying so.

Conventions: fallible Go functions returning (T, error) are embedded as
Except String T; the post-unmarshal response handling of each provider Query
method is embedded as a pure function from the parsed response (None standing
for an unmarshal failure) to the Except result; Go maps used as JSON payloads
are embedded as the lists and options that determine their observable fields.
-/

namespace Agents

/-- The kind of client value produced by the factory NewAPIClient.  Each
constructor stands for one of the six concrete client structs of the agents
package. -/
inductive ClientKind where
  | gemini
  | openai
  | anthropic
  | mistral
  | openrouter
  | openaiCompatible
  deriving DecidableEq, Repr

/-- Embedding of NewAPIClient (agents package): the switch on the provider
name.  The Go function returns (APIClient, error); every branch returns a
non-nil client and a nil error, so the embedding returns Except and every
branch is ok.  The empty provider string defaults to OpenAI; any name not in
the switch falls to the OpenAI-compatible client. -/
def NewAPIClient (provider : String) : Except String ClientKind :=
  if provider = "gemini" then .ok .gemini
  else if provider = "openai" ∨ provider = "" then .ok .openai
  else if provider = "anthropic" then .ok .anthropic
  else if provider = "mistral" then .ok .mistral
  else if provider = "openrouter" then .ok .openrouter
  else .ok .openaiCompatible

/-- Embedding of the nil-client substitution at the top of NewAPIClient: when
the caller passes a nil http.Client, a client with Timeout 120 seconds is
substituted; otherwise the given client (with its own timeout, in
nanoseconds, Go time.Duration units) is kept. -/
def NewAPIClient.clientTimeoutNs (given : Option Int) : Int :=
  match given with
  | none => 120 * 1000000000
  | some t => t

/-- A chat message, role and content, as placed in the messages array of the
OpenAI-style JSON payloads. -/
structure ChatMessage where
  role : String
  content : String
  deriving DecidableEq, Repr

namespace OpenAIClient

/-- Embedding of the start of OpenAIClient.Query: an empty systemPrompt is
replaced by the default assistant instruction before the payload is built. -/
def effectiveSystemPrompt (systemPrompt : String) : String :=
  if systemPrompt = "" then "You are a helpful assistant." else systemPrompt

/-- Embedding of the messages array built by OpenAIClient.Query: a system
message holding the effective system prompt followed by a user message
holding the prompt. -/
def messages (systemPrompt prompt : String) : List ChatMessage :=
  [⟨"system", effectiveSystemPrompt systemPrompt⟩, ⟨"user", prompt⟩]

/-- The parsed response body of the OpenAI chat completions endpoint, as
declared inline in OpenAIClient.Query: a list of choices, each contributing
its message content, and an optional error object with a message. -/
structure Response where
  choices : List String
  error : Option String
  deriving DecidableEq, Repr

/-- Embedding of the response handling tail of OpenAIClient.Query, from the
point where the HTTP response has been received.  The status code of the
response is taken as an argument to record that the Go code never reads it:
only the body is consumed.  A None parsed body stands for a JSON unmarshal
failure.  The checks follow the source order: unmarshal failure, then the
error object, then empty choices, then the first choice content. -/
def handleResponse (statusCode : Nat) (parsed : Option Response) :
    Except String String :=
  match parsed with
  | none => .error ("error unmarshaling response")
  | some r =>
    match r.error with
    | some m => .error ("API error: " ++ m)
    | none =>
      match r.choices with
      | [] => .error ("no choices returned from API")
      | c :: _ => .ok c

end OpenAIClient

namespace GeminiClient

/-- Embedding of the prompt concatenation at the start of GeminiClient.Query:
a non-empty systemPrompt is prepended to the prompt with a blank line, an
empty one leaves the prompt unchanged. -/
def fullPrompt (systemPrompt prompt : String) : String :=
  if systemPrompt = "" then prompt
  else systemPrompt ++ "\n\n" ++ prompt

/-- One candidate of the Gemini response: the text parts of its content. -/
structure Candidate where
  parts : List String
  deriving DecidableEq, Repr

/-- The parsed response body of the Gemini generateContent endpoint, as
declared inline in GeminiClient.Query: a list of candidates and an optional
error object with a message. -/
structure Response where
  candidates : List Candidate
  error : Option String
  deriving DecidableEq, Repr

/-- Embedding of the response handling tail of GeminiClient.Query.  As for
OpenAI the status code is an unread argument.  The source checks the error
object, then that the candidates list is non-empty and the parts list of the
first candidate is non-empty, and returns the first part text of the first
candidate. -/
def handleResponse (statusCode : Nat) (parsed : Option Response) :
    Except String String :=
  match parsed with
  | none => .error ("error unmarshaling response")
  | some r =>
    match r.error with
    | some m => .error ("API error: " ++ m)
    | none =>
      match r.candidates with
      | [] => .error ("no content returned from API")
      | c :: _ =>
        match c.parts with
        | [] => .error ("no content returned from API")
        | t :: _ => .ok t

end GeminiClient

namespace AnthropicClient

/-- Embedding of the optional system field of the Anthropic payload: the
field is set only when systemPrompt is non-empty; an empty systemPrompt
leaves the field absent from the payload map. -/
def systemField (systemPrompt : String) : Option String :=
  if systemPrompt = "" then none else some systemPrompt

/-- The parsed response body of the Anthropic messages endpoint, as declared
inline in AnthropicClient.Query: a list of content blocks, each contributing
its text, and an optional error object with a message. -/
structure Response where
  content : List String
  error : Option String
  deriving DecidableEq, Repr

/-- Embedding of the response handling tail of AnthropicClient.Query: the
error object, then empty content, then the text of the first content
block. -/
def handleResponse (statusCode : Nat) (parsed : Option Response) :
    Except String String :=
  match parsed with
  | none => .error ("error unmarshaling response")
  | some r =>
    match r.error with
    | some m => .error ("API error: " ++ m)
    | none =>
      match r.content with
      | [] => .error ("no content returned from API")
      | t :: _ => .ok t

end AnthropicClient

namespace MistralClient

/-- Embedding of the messages array built by MistralClient.Query: a user
message always, with a system message prepended only when systemPrompt is
non-empty. -/
def messages (systemPrompt prompt : String) : List ChatMessage :=
  if systemPrompt = "" then [⟨"user", prompt⟩]
  else [⟨"system", systemPrompt⟩, ⟨"user", prompt⟩]

/-- Embedding of the response handling tail of MistralClient.Query; the
response shape and checks are the same as for OpenAIClient. -/
def handleResponse (statusCode : Nat) (parsed : Option OpenAIClient.Response) :
    Except String String :=
  match parsed with
  | none => .error ("error unmarshaling response")
  | some r =>
    match r.error with
    | some m => .error ("API error: " ++ m)
    | none =>
      match r.choices with
      | [] => .error ("no choices returned from API")
      | c :: _ => .ok c

end MistralClient

namespace OpenRouterClient

/-- Embedding of the messages array built by OpenRouterClient.Query: same
construction as MistralClient. -/
def messages (systemPrompt prompt : String) : List ChatMessage :=
  if systemPrompt = "" then [⟨"user", prompt⟩]
  else [⟨"system", systemPrompt⟩, ⟨"user", prompt⟩]

/-- Embedding of the response handling tail of OpenRouterClient.Query; the
response shape and checks are the same as for OpenAIClient. -/
def handleResponse (statusCode : Nat) (parsed : Option OpenAIClient.Response) :
    Except String String :=
  match parsed with
  | none => .error ("error unmarshaling response")
  | some r =>
    match r.error with
    | some m => .error ("API error: " ++ m)
    | none =>
      match r.choices with
      | [] => .error ("no choices returned from API")
      | c :: _ => .ok c

end OpenRouterClient

namespace OpenAICompatibleClient

/-- Embedding of the empty systemPrompt substitution of
OpenAICompatibleClient.Query, identical to the OpenAIClient one. -/
def effectiveSystemPrompt (systemPrompt : String) : String :=
  if systemPrompt = "" then "You are a helpful assistant." else systemPrompt

/-- Embedding of the messages array built by OpenAICompatibleClient.Query. -/
def messages (systemPrompt prompt : String) : List ChatMessage :=
  [⟨"system", effectiveSystemPrompt systemPrompt⟩, ⟨"user", prompt⟩]

/-- Embedding of the response handling tail of
OpenAICompatibleClient.Query; the response shape and checks are the same as
for OpenAIClient. -/
def handleResponse (statusCode : Nat) (parsed : Option OpenAIClient.Response) :
    Except String String :=
  match parsed with
  | none => .error ("error unmarshaling response")
  | some r =>
    match r.error with
    | some m => .error ("API error: " ++ m)
    | none =>
      match r.choices with
      | [] => .error ("no choices returned from API")
      | c :: _ => .ok c

end OpenAICompatibleClient

/-- The Transient versus Fatal error taxonomy named by the spec. -/
inductive ErrorClass where
  | transient
  | fatal
  deriving DecidableEq, Repr

/-- Definition following the spec words, for comparison against the source
embedding (the source is the authority): the spec classifies rate limits
(HTTP 429) and server errors (HTTP 5xx) as Transient, and authentication
failures (HTTP 401 and 403) and malformed requests (HTTP 400) as Fatal. -/
def specStatusClass (statusCode : Nat) : Option ErrorClass :=
  if statusCode = 429 ∨ (500 ≤ statusCode ∧ statusCode ≤ 599) then some .transient
  else if statusCode = 401 ∨ statusCode = 403 ∨ statusCode = 400 then some .fatal
  else none

end Agents

namespace MakerCLI

/-- The inputs that determine the control flow of the maker CLI main
function: the value of the openai-key flag, the OPENAI_API_KEY environment
variable, the two list flags, the positional arguments, whether NewAgent
returned an error, and the outcome of GenerateCode (None for success, Some
message for a failed or aborted run). -/
structure Env where
  flagKey : String
  envKey : String
  listTemplatesFlag : Bool
  listLanguagesFlag : Bool
  args : List String
  newAgentErr : Bool
  generateCodeErr : Option String
  deriving Repr

/-- Embedding of the maker CLI main function as its exit code, following the
source order exactly: the key check (flag value, falling back to the
environment variable, exiting 1 when both are empty), the NewAgent error
check (log.Fatal exits 1), the list-templates and list-languages early
returns (normal return, exit 0), the empty positional-arguments check
(exit 1), then Start, GenerateCode (a non-nil error exits 1), Stop and a
normal return (exit 0). -/
def makerMain (e : Env) : Nat :=
  let key := if e.flagKey = "" then e.envKey else e.flagKey
  if key = "" then 1
  else if e.newAgentErr then 1
  else if e.listTemplatesFlag then 0
  else if e.listLanguagesFlag then 0
  else if e.args = [] then 1
  else
    match e.generateCodeErr with
    | some _ => 1
    | none => 0

/-- The default of the worker-count flag in the maker CLI main function. -/
def workerCountFlagDefault : Int := 4

/-- The default of the timeout flag (seconds) in the maker CLI main
function. -/
def timeoutFlagDefault : Int := 120

/-- Reduction of a mathematical integer into the wrapping two-complement
range of a 64-bit signed integer, the representation Go uses for
time.Duration: the result lies in the interval from -(2 pow 63) inclusive
to 2 pow 63 exclusive and is congruent to the input modulo 2 pow 64. -/
def int64Wrap (x : Int) : Int :=
  (x + 9223372036854775808) % 18446744073709551616 - 9223372036854775808

/-- Embedding of the http.Client construction in the maker CLI main
function: the Timeout field is the timeout flag value converted to a Go
time.Duration, that is, multiplied by time.Second into nanoseconds in
wrapping int64 arithmetic (time.Duration is an int64). -/
def httpClientTimeoutNs (timeoutFlag : Int) : Int :=
  int64Wrap (timeoutFlag * 1000000000)

/-- Modelled from the Go net/http documented semantics of Client.Timeout,
at the boundary of the embedding: a positive Timeout bounds the duration of
every request made by the client, while a Timeout of zero means no timeout
at all.  A Query call through the client is therefore time-bounded exactly
when the configured Timeout is positive. -/
def queryCallTimeBounded (timeoutNs : Int) : Prop :=
  0 < timeoutNs

instance (timeoutNs : Int) : Decidable (queryCallTimeBounded timeoutNs) := by
  unfold queryCallTimeBounded; infer_instance

end MakerCLI

namespace WebForm

/-- The min attribute of the worker-count input of the static web page. -/
def workerCountMin : Int := 1

/-- The max attribute of the worker-count input of the static web page. -/
def workerCountMax : Int := 8

/-- The initial value of the worker-count input of the static web page. -/
def workerCountValue : Int := 4

end WebForm

namespace AgentCore

/-- The error taxonomy of the orchestration core named by the spec. -/
inductive ConfigError where
  | invalidWorkerCount
  | unknownTemplate
  | unknownLanguage
  deriving DecidableEq, Repr

/-- Modelled from the spec: the worker-count validation performed before any
task runs (the NewAgent implementation is not in the source tree; the spec
fixes the accepted range as 1 to the configured maximum 8, matching the CLI
flag documentation and the web form attributes, with default 4).  An
in-range count is accepted unchanged; an out-of-range count is rejected as
a ConfigError. -/
def validateWorkerCount (n : Int) : Except ConfigError Int :=
  if 1 ≤ n ∧ n ≤ 8 then .ok n else .error .invalidWorkerCount

/-- One generation unit of a Template: the relative output path and the
per-file instruction, as in the spec data model. -/
structure FileSpec where
  path : String
  instruction : String
  deriving DecidableEq, Repr

/-- Modelled from the spec: a GenerationTask owns its FileSpec and carries
the fully resolved system and user prompts. -/
structure GenerationTask where
  spec : FileSpec
  systemPrompt : String
  userPrompt : String
  deriving DecidableEq, Repr

/-- The outcome of one generation call: generated content or a classified
failure message. -/
inductive GenOutcome where
  | success (content : String)
  | failure (message : String)
  deriving DecidableEq, Repr

/-- Modelled from the spec: a TaskResult pairs the file path of the owning
FileSpec with the outcome of its single generation attempt. -/
structure TaskResult where
  path : String
  outcome : GenOutcome
  deriving DecidableEq, Repr

/-- The single result a worker produces for one task: the path of the owning
FileSpec together with whatever the generation client returned for that
task. -/
def mkTaskResult (outcome : GenerationTask → GenOutcome)
    (t : GenerationTask) : TaskResult :=
  ⟨t.spec.path, outcome t⟩

/-- The shared task queue of a run: every task of the template, tagged with
its queue position. -/
def taskQueue (tasks : List GenerationTask) : List (Nat × GenerationTask) :=
  (List.range tasks.length).zip tasks

/-- The tasks picked up by worker w under a schedule assigning each queue
position to a worker.  Any worker may pick up any task; the schedule is an
arbitrary function, so no ordering or affinity is assumed. -/
def workerTasks (sched : Nat → Nat) (tasks : List GenerationTask) (w : Nat) :
    List (Nat × GenerationTask) :=
  (taskQueue tasks).filter (fun p => sched p.1 = w)

/-- One worker of the pool: it processes each task it picks up in turn,
invoking the generation client and emitting one TaskResult per task; a
failure outcome is emitted like any other result and the worker continues
with its next task. -/
def workerRun (outcome : GenerationTask → GenOutcome)
    (queue : List (Nat × GenerationTask)) : List TaskResult :=
  queue.map (fun p => mkTaskResult outcome p.2)

/-- Modelled from the spec: a WorkerPool run with n workers under a given
schedule.  Each of the n workers consumes its share of the shared queue and
the pool drains into the concatenation of the per-worker result streams
(one representative interleaving; the theorems below are stated up to
permutation, so the actual interleaving does not matter). -/
def poolRun (n : Nat) (sched : Nat → Nat)
    (outcome : GenerationTask → GenOutcome)
    (tasks : List GenerationTask) : List TaskResult :=
  ((List.range n).map (fun w => workerRun outcome (workerTasks sched tasks w))).flatten

/-- A ProgressEvent as delivered to the EventSink, following the spec data
model: a start event carrying the total file count, a file event per
successfully written file, an error event per failed task, and a terminal
event that is either complete (with a summary) or the aggregate failure
(naming every failed path). -/
inductive ProgressEvent where
  | start (totalFiles : Nat)
  | file (path : String)
  | error (path : String) (message : String)
  | complete (summary : String)
  | aggregateFailure (failedPaths : List String)
  deriving DecidableEq, Repr

/-- The per-task event the Agent emits when it consumes one TaskResult: a
file event on success, an error event on failure. -/
def eventOfResult (r : TaskResult) : ProgressEvent :=
  match r.outcome with
  | .success _ => .file r.path
  | .failure m => .error r.path m

/-- The paths of the failed results of a run, in delivery order. -/
def failedPathsOf (rs : List TaskResult) : List String :=
  (rs.filter (fun r =>
    match r.outcome with
    | .success _ => false
    | .failure _ => true)).map TaskResult.path

/-- The terminal event of a run: complete when no task failed, the
aggregate failure naming every failed path otherwise. -/
def terminalEvent (rs : List TaskResult) : ProgressEvent :=
  if failedPathsOf rs = [] then .complete ("Code generation complete")
  else .aggregateFailure (failedPathsOf rs)

/-- Modelled from the spec: the full event sequence the Agent emits to the
EventSink over one run, given the results in their delivery order: one
start event carrying the total file count, one file or error event per
result as it is consumed, then exactly one terminal event. -/
def emitRun (totalFiles : Nat) (rs : List TaskResult) : List ProgressEvent :=
  .start totalFiles :: (rs.map eventOfResult ++ [terminalEvent rs])

/-- Recognizer for start events. -/
def ProgressEvent.isStart : ProgressEvent → Bool
  | .start _ => true
  | _ => false

/-- Recognizer for the per-task events: file or error. -/
def ProgressEvent.isFileOrError : ProgressEvent → Bool
  | .file _ => true
  | .error _ _ => true
  | _ => false

/-- Recognizer for the terminal events: complete or the aggregate
failure. -/
def ProgressEvent.isTerminal : ProgressEvent → Bool
  | .complete _ => true
  | .aggregateFailure _ => true
  | _ => false

/-- The lifecycle phase of an Agent instance, per the spec state machine:
construction yields idle, Start moves to started, Stop moves to stopped. -/
inductive Phase where
  | idle
  | started
  | stopped
  deriving DecidableEq, Repr

/-- The run usage of an Agent instance: no run yet, a run in flight, or a
terminal run outcome.  The spec fixes at most one run per lifetime between
Start and Stop. -/
inductive RunState where
  | notRun
  | running
  | completedRun
  | failedRun
  | cancelledRun
  deriving DecidableEq, Repr

/-- Modelled from the spec: the observable state of one Agent instance. -/
structure AgentState where
  phase : Phase
  run : RunState
  deriving DecidableEq, Repr

/-- The errors GenerateCode can reject a call with, per the spec. -/
inductive AgentError where
  | invalidState
  | alreadyRunning
  | runFailed
  deriving DecidableEq, Repr

/-- A freshly constructed Agent: idle, no run performed. -/
def freshAgent : AgentState := ⟨.idle, .notRun⟩

/-- Modelled from the spec: Start moves an idle Agent to started and is a
no-op otherwise (calling twice is a no-op). -/
def start (a : AgentState) : AgentState :=
  match a.phase with
  | .idle => ⟨.started, a.run⟩
  | _ => a

/-- Modelled from the spec: Stop moves any Agent to stopped and is safe to
call repeatedly; it releases resources but does not reset the run usage of
the instance (a new run requires reconstruction). -/
def stop (a : AgentState) : AgentState :=
  ⟨.stopped, a.run⟩

/-- Modelled from the spec: GenerateCode requires the started phase (else
InvalidStateError); within the started phase it requires that no run has
been begun on this instance (else AlreadyRunningError) — this covers both a
concurrent second invocation, which observes the running state, and a later
second invocation, which observes the terminal run state.  An accepted call
performs the single run of the instance and leaves the run usage in a
terminal state. -/
def generateCode (a : AgentState) (runFails : Bool) :
    Except AgentError Unit × AgentState :=
  if a.phase ≠ Phase.started then (.error .invalidState, a)
  else if a.run ≠ RunState.notRun then (.error .alreadyRunning, a)
  else if runFails then (.error .runFailed, ⟨a.phase, .failedRun⟩)
  else (.ok (), ⟨a.phase, .completedRun⟩)

/-- The operations a caller can perform on an Agent instance. -/
inductive Op where
  | startOp
  | stopOp
  | generateOp (runFails : Bool)
  deriving DecidableEq, Repr

/-- One step of the Agent life, returning the new state and whether this
operation began a run. -/
def stepBegins (a : AgentState) (op : Op) : AgentState × Bool :=
  match op with
  | .startOp => (start a, false)
  | .stopOp => (stop a, false)
  | .generateOp f =>
    ((generateCode a f).2, a.phase == Phase.started && a.run == RunState.notRun)

/-- The number of runs begun over a sequence of operations on an Agent. -/
def runsBegun (a : AgentState) : List Op → Nat
  | [] => 0
  | op :: ops =>
    let s := stepBegins a op
    (if s.2 then 1 else 0) + runsBegun s.1 ops

/-- Concrete template tasks used to evaluate the pool theorems on an
input. -/
def wTasks : List GenerationTask :=
  [⟨⟨"main.go", "write the entry point"⟩, "sys", "u1"⟩,
   ⟨⟨"go.mod", "write the module file"⟩, "sys", "u2"⟩,
   ⟨⟨"api.go", "write the handlers"⟩, "sys", "u3"⟩]

/-- A concrete round-robin schedule over two workers. -/
def wSched : Nat → Nat := fun i => i % 2

/-- A concrete deterministic outcome function that fails exactly one
task. -/
def wOutcome : GenerationTask → GenOutcome :=
  fun t => if t.spec.path = "go.mod" then .failure ("rate limited")
           else .success ("package content")

/-- A concrete delivery-ordered result list with one failure, used to
evaluate the event-sequence theorem on an input. -/
def wResults : List TaskResult :=
  [⟨"main.go", .success ("package content")⟩,
   ⟨"go.mod", .failure ("rate limited")⟩]

/-- A concrete fully successful result list. -/
def wResultsOk : List TaskResult :=
  [⟨"main.go", .success ("package content")⟩,
   ⟨"go.mod", .success ("module content")⟩]

end AgentCore

namespace AgentCore

/-- Flattening a list of buckets in which exactly the bucket named k got x
prepended is, up to permutation, x prepended to the flattening of the
original buckets. -/
theorem flatten_map_ite_cons {α : Type} (x : α) (f : Nat → List α) (k : Nat) :
    ∀ (L : List Nat), k ∈ L → L.Nodup →
      ((L.map (fun w => if w = k then x :: f w else f w)).flatten).Perm
        (x :: (L.map f).flatten) := by
  intro L
  induction L with
  | nil => intro h; cases h
  | cons w ws ih =>
    intro hk hnd
    by_cases hw : w = k
    · subst hw
      have hnotin : w ∉ ws := (List.nodup_cons.mp hnd).1
      have hmap : ws.map (fun u => if u = w then x :: f u else f u) = ws.map f := by
        apply List.map_congr_left
        intro u hu
        have hne : u ≠ w := fun h => hnotin (h ▸ hu)
        simp [hne]
      simp [hmap]
    · have hk2 : k ∈ ws := by
        cases hk with
        | head => exact absurd rfl hw
        | tail _ h => exact h
      have hnd2 : ws.Nodup := (List.nodup_cons.mp hnd).2
      have ihh := ih hk2 hnd2
      simp only [List.map_cons, List.flatten_cons, if_neg hw]
      exact (ihh.append_left (f w)).trans List.perm_middle

/-- Partitioning a list into buckets by a function with range below n and
flattening the buckets is a permutation of the list. -/
theorem bucket_flatten_perm {α : Type} (g : α → Nat) (n : Nat) :
    ∀ (l : List α), (∀ a ∈ l, g a < n) →
      (((List.range n).map (fun w => l.filter (fun a => g a = w))).flatten).Perm l := by
  intro l
  induction l with
  | nil => intro _; simp
  | cons a l ih =>
    intro h
    have ha : g a < n := h a (List.mem_cons_self a l)
    have hl : ∀ b ∈ l, g b < n := fun b hb => h b (List.mem_cons_of_mem a hb)
    have hmap : (List.range n).map (fun w => (a :: l).filter (fun b => g b = w)) =
        (List.range n).map
          (fun w => if w = g a then a :: l.filter (fun b => g b = w)
                    else l.filter (fun b => g b = w)) := by
      apply List.map_congr_left
      intro w hw
      by_cases hwa : w = g a
      · subst hwa
        simp [List.filter_cons]
      · have hne : ¬(g a = w) := fun h2 => hwa h2.symm
        simp [List.filter_cons, hne, hwa]
    rw [hmap]
    have hperm := flatten_map_ite_cons a (fun w => l.filter (fun b => g b = w)) (g a)
      (List.range n) (List.mem_range.mpr ha) (List.nodup_range n)
    exact hperm.trans ((ih hl).cons a)

/-- The results a pool run drains are, up to delivery order, exactly the
one-per-task results. -/
theorem poolRun_perm (n : Nat) (sched : Nat → Nat)
    (outcome : GenerationTask → GenOutcome) (tasks : List GenerationTask)
    (hsched : ∀ i, i < tasks.length → sched i < n) :
    (poolRun n sched outcome tasks).Perm (tasks.map (mkTaskResult outcome)) := by
  have hq : ∀ p ∈ taskQueue tasks, sched p.1 < n := by
    intro p hp
    obtain ⟨p1, p2⟩ := p
    have hmem := List.of_mem_zip hp
    exact hsched p1 (List.mem_range.mp hmem.1)
  have hbucket := bucket_flatten_perm (fun p => sched p.1) n (taskQueue tasks) hq
  have hstep : poolRun n sched outcome tasks =
      ((((List.range n).map
        (fun w => (taskQueue tasks).filter (fun p => sched p.1 = w))).flatten).map
          (fun p => mkTaskResult outcome p.2)) := by
    simp only [poolRun, workerRun, workerTasks, List.map_flatten, List.map_map]
    rfl
  rw [hstep]
  have hmapped := hbucket.map (fun p => mkTaskResult outcome p.2)
  refine hmapped.trans ?_
  have hsnd : (taskQueue tasks).map (fun p => mkTaskResult outcome p.2) =
      ((taskQueue tasks).map Prod.snd).map (mkTaskResult outcome) := by
    rw [List.map_map]
    rfl
  rw [hsnd, taskQueue, List.map_snd_zip _ _ (by simp)]

end AgentCore

open Agents AgentCore MakerCLI WebForm in
/-- Claim C1: for every run over a Template with K file specs and any worker
count N with 1 ≤ N ≤ K, the worker pool produces exactly K TaskResults, one
per FileSpec file path, regardless of N and of the schedule by which workers
pick up tasks; and since the outcome function is arbitrary — including
functions failing any subset of the tasks — the membership conjunct shows
that a failure of one task never prevents any sibling task from producing
its own result. -/
theorem C1_pool_one_result_per_filespec
    (tasks : List AgentCore.GenerationTask) (n : Nat) (sched : Nat → Nat)
    (outcome : AgentCore.GenerationTask → AgentCore.GenOutcome)
    (hn : 1 ≤ n) (hnK : n ≤ tasks.length)
    (hsched : ∀ i, i < tasks.length → sched i < n) :
    (AgentCore.poolRun n sched outcome tasks).length = tasks.length ∧
    ((AgentCore.poolRun n sched outcome tasks).map AgentCore.TaskResult.path).Perm
      (tasks.map (fun t => t.spec.path)) ∧
    (∀ t ∈ tasks,
      AgentCore.mkTaskResult outcome t ∈ AgentCore.poolRun n sched outcome tasks) := by
  have hperm := AgentCore.poolRun_perm n sched outcome tasks hsched
  refine ⟨?_, ?_, ?_⟩
  · rw [hperm.length_eq, List.length_map]
  · have := hperm.map AgentCore.TaskResult.path
    refine this.trans ?_
    rw [List.map_map]
    exact List.Perm.refl _
  · intro t ht
    exact hperm.mem_iff.mpr (List.mem_map_of_mem _ ht)

/-- Witness for claim C1: the theorem evaluated on a concrete three-file
template, two workers, a round-robin schedule, and an outcome failing
exactly one task; the failing task still yields its one result and the two
siblings yield theirs. -/
theorem C1_pool_one_result_per_filespec_witness :
    (1 ≤ 2 ∧ 2 ≤ AgentCore.wTasks.length ∧ (∀ i, i < AgentCore.wTasks.length → AgentCore.wSched i < 2)) ∧
    ((AgentCore.poolRun 2 AgentCore.wSched AgentCore.wOutcome AgentCore.wTasks).length = AgentCore.wTasks.length ∧
    ((AgentCore.poolRun 2 AgentCore.wSched AgentCore.wOutcome AgentCore.wTasks).map AgentCore.TaskResult.path).Perm
      (AgentCore.wTasks.map (fun t => t.spec.path)) ∧
    (∀ t ∈ AgentCore.wTasks,
      AgentCore.mkTaskResult AgentCore.wOutcome t ∈
        AgentCore.poolRun 2 AgentCore.wSched AgentCore.wOutcome AgentCore.wTasks)) :=
  ⟨⟨by decide, by decide, fun i _ => Nat.mod_lt i (by decide)⟩,
   C1_pool_one_result_per_filespec AgentCore.wTasks 2 AgentCore.wSched AgentCore.wOutcome
     (by decide) (by decide) (fun i _ => Nat.mod_lt i (by decide))⟩

namespace AgentCore

/-- A per-task event is never a start event. -/
theorem isStart_eventOfResult (r : TaskResult) :
    (eventOfResult r).isStart = false := by
  cases h : r.outcome <;> simp [eventOfResult, h, ProgressEvent.isStart]

/-- A per-task event is always a file or error event. -/
theorem isFileOrError_eventOfResult (r : TaskResult) :
    (eventOfResult r).isFileOrError = true := by
  cases h : r.outcome <;> simp [eventOfResult, h, ProgressEvent.isFileOrError]

/-- A per-task event is never a terminal event. -/
theorem isTerminal_eventOfResult (r : TaskResult) :
    (eventOfResult r).isTerminal = false := by
  cases h : r.outcome <;> simp [eventOfResult, h, ProgressEvent.isTerminal]

/-- The terminal event of a run is a terminal event. -/
theorem isTerminal_terminalEvent (rs : List TaskResult) :
    (terminalEvent rs).isTerminal = true := by
  unfold terminalEvent
  split <;> rfl

/-- The terminal event of a run is never a start event. -/
theorem isStart_terminalEvent (rs : List TaskResult) :
    (terminalEvent rs).isStart = false := by
  unfold terminalEvent
  split <;> rfl

/-- A start event is a start event. -/
theorem isStart_start (n : Nat) : (ProgressEvent.start n).isStart = true := rfl

/-- A start event is not a terminal event. -/
theorem isTerminal_start (n : Nat) : (ProgressEvent.start n).isTerminal = false := rfl

end AgentCore

/-- Claim C2: for every run, the event sequence emitted to the EventSink is
exactly one start event first (carrying the total file count), then K
events, one per task result in delivery order, each a file or error event,
then exactly one terminal event which is complete on success and the
aggregate failure otherwise, with no other events. -/
theorem C2_event_sequence (rs : List AgentCore.TaskResult) :
    (AgentCore.emitRun rs.length rs).length = rs.length + 2 ∧
    (AgentCore.emitRun rs.length rs).head? =
      some (AgentCore.ProgressEvent.start rs.length) ∧
    ((AgentCore.emitRun rs.length rs).countP AgentCore.ProgressEvent.isStart) = 1 ∧
    ((AgentCore.emitRun rs.length rs).countP AgentCore.ProgressEvent.isTerminal) = 1 ∧
    (((AgentCore.emitRun rs.length rs).drop 1).dropLast =
      rs.map AgentCore.eventOfResult) ∧
    (∀ e ∈ rs.map AgentCore.eventOfResult, e.isFileOrError = true) ∧
    (AgentCore.emitRun rs.length rs).getLast? = some (AgentCore.terminalEvent rs) ∧
    (AgentCore.terminalEvent rs).isTerminal = true ∧
    (AgentCore.failedPathsOf rs = [] →
      AgentCore.terminalEvent rs =
        AgentCore.ProgressEvent.complete ("Code generation complete")) ∧
    (AgentCore.failedPathsOf rs ≠ [] →
      AgentCore.terminalEvent rs =
        AgentCore.ProgressEvent.aggregateFailure (AgentCore.failedPathsOf rs)) := by
  refine ⟨?_, ?_, ?_, ?_, ?_, ?_, ?_, ?_, ?_, ?_⟩
  · simp [AgentCore.emitRun]
  · simp [AgentCore.emitRun]
  · simp only [AgentCore.emitRun, List.countP_cons, List.countP_append]
    have h1 : (rs.map AgentCore.eventOfResult).countP AgentCore.ProgressEvent.isStart = 0 := by
      rw [List.countP_eq_zero]
      intro e he
      obtain ⟨r, _, rfl⟩ := List.mem_map.mp he
      simp [AgentCore.isStart_eventOfResult]
    simp [h1, AgentCore.isStart_terminalEvent, AgentCore.isStart_start]
  · simp only [AgentCore.emitRun, List.countP_cons, List.countP_append]
    have h1 : (rs.map AgentCore.eventOfResult).countP AgentCore.ProgressEvent.isTerminal = 0 := by
      rw [List.countP_eq_zero]
      intro e he
      obtain ⟨r, _, rfl⟩ := List.mem_map.mp he
      simp [AgentCore.isTerminal_eventOfResult]
    simp [h1, AgentCore.isTerminal_terminalEvent, AgentCore.isTerminal_start]
  · simp [AgentCore.emitRun, List.dropLast_concat]
  · intro e he
    obtain ⟨r, _, rfl⟩ := List.mem_map.mp he
    exact AgentCore.isFileOrError_eventOfResult r
  · show (AgentCore.ProgressEvent.start rs.length ::
        (rs.map AgentCore.eventOfResult ++ [AgentCore.terminalEvent rs])).getLast? =
      some (AgentCore.terminalEvent rs)
    rw [← List.cons_append, List.getLast?_concat]
  · exact AgentCore.isTerminal_terminalEvent rs
  · intro h
    simp [AgentCore.terminalEvent, h]
  · intro h
    simp [AgentCore.terminalEvent, h]

/-- Witness for claim C2: the event-sequence shape evaluated on a concrete
two-result run with one failure (the terminal is the aggregate failure
naming the one failed path), together with the complete terminal of a
concrete fully successful run. -/
theorem C2_event_sequence_witness :
    (AgentCore.emitRun AgentCore.wResults.length AgentCore.wResults).getLast? =
      some (AgentCore.ProgressEvent.aggregateFailure ["go.mod"]) ∧
    (AgentCore.emitRun AgentCore.wResultsOk.length AgentCore.wResultsOk).getLast? =
      some (AgentCore.ProgressEvent.complete ("Code generation complete")) := by
  have h1 := (C2_event_sequence AgentCore.wResults).2.2.2.2.2.2.1
  have h2 := (C2_event_sequence AgentCore.wResults).2.2.2.2.2.2.2.2.2 (by decide)
  have h3 := (C2_event_sequence AgentCore.wResultsOk).2.2.2.2.2.2.1
  have h4 := (C2_event_sequence AgentCore.wResultsOk).2.2.2.2.2.2.2.2.1 (by decide)
  constructor
  · rw [h1, h2]
    decide
  · rw [h3, h4]

/-- Claim C3 counterexample: the Query implementations never inspect the
HTTP status code and return plain formatted message strings, so two
responses the spec classifies differently — an authentication failure
(status 401, Fatal) and a rate limit (status 429, Transient) carrying the
same error body — produce the identical Query error value; no Transient or
Fatal classification is carried by the error, hence none can be preserved
into the TaskResult. -/
theorem C3_counterexample :
    Agents.OpenAIClient.handleResponse 401
        (some ⟨[], some ("quota exceeded")⟩) =
      Agents.OpenAIClient.handleResponse 429
        (some ⟨[], some ("quota exceeded")⟩) ∧
    Agents.OpenAIClient.handleResponse 429
        (some ⟨[], some ("quota exceeded")⟩) =
      .error ("API error: quota exceeded") ∧
    Agents.specStatusClass 401 ≠ Agents.specStatusClass 429 :=
  ⟨rfl, rfl, by decide⟩

/-- Claim C3 (amended): every error returned by a provider Query call is a
plain formatted message string with no Transient or Fatal classification
attached: the result of every response handler is invariant in the HTTP
status code (network class, rate limiting and server errors are never
distinguished from authentication failures), so only the message text is
available for downstream reporting. -/
theorem C3_amended_errors_unclassified
    (s s2 : Nat)
    (p1 : Option Agents.OpenAIClient.Response)
    (p2 : Option Agents.GeminiClient.Response)
    (p3 : Option Agents.AnthropicClient.Response)
    (p4 p5 p6 : Option Agents.OpenAIClient.Response) :
    Agents.OpenAIClient.handleResponse s p1 =
      Agents.OpenAIClient.handleResponse s2 p1 ∧
    Agents.GeminiClient.handleResponse s p2 =
      Agents.GeminiClient.handleResponse s2 p2 ∧
    Agents.AnthropicClient.handleResponse s p3 =
      Agents.AnthropicClient.handleResponse s2 p3 ∧
    Agents.MistralClient.handleResponse s p4 =
      Agents.MistralClient.handleResponse s2 p4 ∧
    Agents.OpenRouterClient.handleResponse s p5 =
      Agents.OpenRouterClient.handleResponse s2 p5 ∧
    Agents.OpenAICompatibleClient.handleResponse s p6 =
      Agents.OpenAICompatibleClient.handleResponse s2 p6 :=
  ⟨rfl, rfl, rfl, rfl, rfl, rfl⟩

/-- Claim C4: the maker CLI exits 0 on a fully successful run and exits 1
when the API key is absent from both the flag and the environment variable,
when no positional prompt words are given (in a generation run, that is,
outside the two list modes), and when GenerateCode returns an error. -/
theorem C4_maker_exit_codes
    (flagKey envKey : String) (listT listL : Bool) (args : List String)
    (agentErr : Bool) (genMsg : String) (genErr : Option String) :
    (flagKey = "" → envKey = "" →
      MakerCLI.makerMain ⟨flagKey, envKey, listT, listL, args, agentErr, genErr⟩ = 1) ∧
    (flagKey ≠ "" → agentErr = false → listT = false → listL = false →
      MakerCLI.makerMain ⟨flagKey, envKey, listT, listL, [], agentErr, genErr⟩ = 1) ∧
    (flagKey ≠ "" → agentErr = false → listT = false → listL = false → args ≠ [] →
      MakerCLI.makerMain ⟨flagKey, envKey, listT, listL, args, agentErr, some genMsg⟩ = 1) ∧
    (flagKey ≠ "" → agentErr = false → args ≠ [] →
      MakerCLI.makerMain ⟨flagKey, envKey, listT, listL, args, agentErr, none⟩ = 0) := by
  refine ⟨?_, ?_, ?_, ?_⟩
  · intro h1 h2
    subst h1
    subst h2
    simp [MakerCLI.makerMain]
  · intro hk ha hlt hll
    simp [MakerCLI.makerMain, hk, ha, hlt, hll]
  · intro hk ha hlt hll hargs
    simp [MakerCLI.makerMain, hk, ha, hlt, hll, hargs]
  · intro hk ha hargs
    cases listT <;> cases listL <;>
      simp [MakerCLI.makerMain, hk, ha, hargs]

/-- Witness for claim C4: the four exit-code cases evaluated on concrete
inputs — both key sources empty; a present key but an empty prompt; a
failed run; and a fully successful run. -/
theorem C4_maker_exit_codes_witness :
    MakerCLI.makerMain ⟨"", "", false, false, ["build", "an", "api"], false, none⟩ = 1 ∧
    MakerCLI.makerMain ⟨"sk-key", "", false, false, [], false, none⟩ = 1 ∧
    MakerCLI.makerMain
      ⟨"sk-key", "", false, false, ["build"], false, some ("one task failed")⟩ = 1 ∧
    MakerCLI.makerMain ⟨"sk-key", "", false, false, ["build"], false, none⟩ = 0 :=
  ⟨(C4_maker_exit_codes "" "" false false ["build", "an", "api"] false "m" none).1 rfl rfl,
   (C4_maker_exit_codes "sk-key" "" false false [] false "m" none).2.1
     (by decide) rfl rfl rfl,
   (C4_maker_exit_codes "sk-key" "" false false ["build"] false "one task failed"
     (some ("one task failed"))).2.2.1 (by decide) rfl rfl rfl (by decide),
   (C4_maker_exit_codes "sk-key" "" false false ["build"] false "m" none).2.2.2
     (by decide) rfl (by decide)⟩

/-- Claim C5: the worker count is validated before any task runs: the CLI
default is 4 and the web form constrains the input to 1 through 8 with
initial value 4; a configured count is accepted exactly when 1 ≤ N ≤ 8 and
an out-of-range count is rejected as a ConfigError instead of being
used. -/
theorem C5_worker_count_validation (n : Int) :
    MakerCLI.workerCountFlagDefault = 4 ∧
    WebForm.workerCountMin = 1 ∧
    WebForm.workerCountMax = 8 ∧
    WebForm.workerCountValue = 4 ∧
    AgentCore.validateWorkerCount MakerCLI.workerCountFlagDefault = .ok 4 ∧
    (1 ≤ n → n ≤ 8 → AgentCore.validateWorkerCount n = .ok n) ∧
    (n < 1 ∨ 8 < n →
      AgentCore.validateWorkerCount n =
        .error AgentCore.ConfigError.invalidWorkerCount) := by
  refine ⟨rfl, rfl, rfl, rfl, rfl, ?_, ?_⟩
  · intro h1 h2
    simp [AgentCore.validateWorkerCount, h1, h2]
  · intro h
    have hno : ¬(1 ≤ n ∧ n ≤ 8) := by omega
    simp [AgentCore.validateWorkerCount, hno]

/-- Witness for claim C5: an in-range count is accepted and an out-of-range
count is rejected, at the concrete counts 5 and 9. -/
theorem C5_worker_count_validation_witness :
    AgentCore.validateWorkerCount 5 = .ok 5 ∧
    AgentCore.validateWorkerCount 9 =
      .error AgentCore.ConfigError.invalidWorkerCount :=
  ⟨(C5_worker_count_validation 5).2.2.2.2.2.1 (by decide) (by decide),
   (C5_worker_count_validation 9).2.2.2.2.2.2 (Or.inr (by decide))⟩

/-- Claim C6 counterexample: two caller-configured flag values under which
a Query call is not time-bounded.  With the timeout flag set to 0 the maker
CLI constructs an HTTP client whose Timeout field is 0, and under the
documented Go net/http semantics a non-positive Timeout means no timeout at
all.  With the flag set to 10000000000 the multiplication into nanoseconds
overflows the int64 time.Duration to a negative Timeout, again no bound.
So the claim that no Query call can block indefinitely fails at these
concrete flag values. -/
theorem C6_counterexample :
    MakerCLI.httpClientTimeoutNs 0 = 0 ∧
    ¬ MakerCLI.queryCallTimeBounded (MakerCLI.httpClientTimeoutNs 0) ∧
    MakerCLI.httpClientTimeoutNs 10000000000 = -8446744073709551616 ∧
    ¬ MakerCLI.queryCallTimeBounded (MakerCLI.httpClientTimeoutNs 10000000000) :=
  ⟨by decide, by decide, by decide, by decide⟩

/-- Claim C6 (amended): the maker CLI constructs its HTTP client with a
timeout of the timeout flag value in seconds (default 120) computed in
wrapping int64 time.Duration arithmetic, and NewAPIClient substitutes a
client with a 120 second timeout when given a nil http.Client; a Query
call through these clients is time-bounded whenever the configured flag
value is positive and its nanosecond product fits in int64 (1 ≤ t ≤
9223372036) — a non-positive value (for example 0) or an overflowing one
(for example 10000000000) disables the bound. -/
theorem C6_amended_timeouts (t : Int) (ht : 1 ≤ t) (htmax : t ≤ 9223372036) :
    MakerCLI.httpClientTimeoutNs t = t * 1000000000 ∧
    MakerCLI.queryCallTimeBounded (MakerCLI.httpClientTimeoutNs t) ∧
    MakerCLI.timeoutFlagDefault = 120 ∧
    Agents.NewAPIClient.clientTimeoutNs none = 120 * 1000000000 ∧
    MakerCLI.queryCallTimeBounded (Agents.NewAPIClient.clientTimeoutNs none) := by
  have ht0 : (0 : Int) < t := lt_of_lt_of_le zero_lt_one ht
  have hpos : (0 : Int) < t * 1000000000 := mul_pos ht0 (by norm_num)
  have hub : t * 1000000000 ≤ 9223372036000000000 := by
    have h := mul_le_mul_of_nonneg_right htmax (by norm_num : (0:Int) ≤ 1000000000)
    linarith
  have heq : MakerCLI.httpClientTimeoutNs t = t * 1000000000 := by
    unfold MakerCLI.httpClientTimeoutNs MakerCLI.int64Wrap
    rw [Int.emod_eq_of_lt (by omega) (by omega)]
    omega
  refine ⟨heq, ?_, rfl, rfl, by decide⟩
  rw [heq]
  exact hpos

/-- Witness for claim C6 (amended): evaluated at the default flag value
120, which is inside the non-overflowing range. -/
theorem C6_amended_timeouts_witness :
    ((1 : Int) ≤ 120 ∧ (120 : Int) ≤ 9223372036) ∧
    (MakerCLI.httpClientTimeoutNs 120 = 120 * 1000000000 ∧
    MakerCLI.queryCallTimeBounded (MakerCLI.httpClientTimeoutNs 120) ∧
    MakerCLI.timeoutFlagDefault = 120 ∧
    Agents.NewAPIClient.clientTimeoutNs none = 120 * 1000000000 ∧
    MakerCLI.queryCallTimeBounded (Agents.NewAPIClient.clientTimeoutNs none)) :=
  ⟨⟨by decide, by decide⟩, C6_amended_timeouts 120 (by decide) (by decide)⟩

namespace AgentCore

/-- A step that does not begin a run leaves the run usage of the instance
unchanged. -/
theorem stepBegins_run_preserved (a : AgentState) (op : Op)
    (h : (stepBegins a op).2 = false) : (stepBegins a op).1.run = a.run := by
  cases op with
  | startOp =>
    show (start a).run = a.run
    unfold start
    cases a.phase <;> rfl
  | stopOp => rfl
  | generateOp f =>
    by_cases hp : a.phase = Phase.started
    · by_cases hr : a.run = RunState.notRun
      · simp [stepBegins, hp, hr] at h
      · show (generateCode a f).2.run = a.run
        simp [generateCode, hp, hr]
    · show (generateCode a f).2.run = a.run
      simp [generateCode, hp]

/-- A step that begins a run is possible only when no run had begun, and
afterwards the instance is marked as used. -/
theorem stepBegins_run_used (a : AgentState) (op : Op)
    (h : (stepBegins a op).2 = true) :
    a.run = RunState.notRun ∧ (stepBegins a op).1.run ≠ RunState.notRun := by
  cases op with
  | startOp => simp [stepBegins] at h
  | stopOp => simp [stepBegins] at h
  | generateOp f =>
    simp only [stepBegins, Bool.and_eq_true, beq_iff_eq] at h
    obtain ⟨hp, hr⟩ := h
    refine ⟨hr, ?_⟩
    show (generateCode a f).2.run ≠ RunState.notRun
    cases f <;> simp [generateCode, hp, hr]

/-- Over any operation sequence, an Agent whose single run has already
begun begins no further run, and a fresh one begins at most one. -/
theorem runsBegun_bound (ops : List Op) : ∀ a : AgentState,
    runsBegun a ops ≤ if a.run = RunState.notRun then 1 else 0 := by
  induction ops with
  | nil =>
    intro a
    simp [runsBegun]
  | cons op ops ih =>
    intro a
    show (if (stepBegins a op).2 then 1 else 0) + runsBegun (stepBegins a op).1 ops ≤ _
    cases hb : (stepBegins a op).2 with
    | false =>
      have hrun := stepBegins_run_preserved a op hb
      have h2 := ih (stepBegins a op).1
      rw [hrun] at h2
      simpa using h2
    | true =>
      obtain ⟨hnot, hused⟩ := stepBegins_run_used a op hb
      have h2 := ih (stepBegins a op).1
      rw [if_neg hused] at h2
      rw [if_pos hnot]
      show 1 + AgentCore.runsBegun (AgentCore.stepBegins a op).1 ops ≤ 1
      omega

end AgentCore

/-- Claim C7: after Start, a second GenerateCode invocation on the same
Agent instance before Stop or reconstruction is rejected with
AlreadyRunningError — both a concurrent invocation, which observes the run
still in flight, and a later invocation, which observes the terminal run
usage — and over any operation sequence a freshly constructed Agent begins
at most one run between Start and Stop. -/
theorem C7_single_run_per_lifetime (f f2 : Bool) (ops : List AgentCore.Op) :
    ((AgentCore.generateCode
        ⟨AgentCore.Phase.started, AgentCore.RunState.running⟩ f).1 =
      .error AgentCore.AgentError.alreadyRunning) ∧
    ((AgentCore.generateCode
        (AgentCore.generateCode (AgentCore.start AgentCore.freshAgent) f).2 f2).1 =
      .error AgentCore.AgentError.alreadyRunning) ∧
    AgentCore.runsBegun AgentCore.freshAgent ops ≤ 1 := by
  refine ⟨?_, ?_, ?_⟩
  · cases f <;> rfl
  · cases f <;> cases f2 <;> rfl
  · have h := AgentCore.runsBegun_bound ops AgentCore.freshAgent
    simpa using h

/-- Claim C8: NewAPIClient selects the client by an explicit name-to-client
mapping and never fails: each known provider name maps to its client, the
empty name defaults to OpenAI, and every other name falls to the
OpenAI-compatible client; for every provider string the result is a client
with a nil error. -/
theorem C8_provider_mapping (s : String) :
    Agents.NewAPIClient ("gemini") = .ok .gemini ∧
    Agents.NewAPIClient ("openai") = .ok .openai ∧
    Agents.NewAPIClient ("") = .ok .openai ∧
    Agents.NewAPIClient ("anthropic") = .ok .anthropic ∧
    Agents.NewAPIClient ("mistral") = .ok .mistral ∧
    Agents.NewAPIClient ("openrouter") = .ok .openrouter ∧
    (s ≠ "gemini" → s ≠ "openai" → s ≠ "" → s ≠ "anthropic" → s ≠ "mistral" →
      s ≠ "openrouter" → Agents.NewAPIClient s = .ok .openaiCompatible) ∧
    (∃ c, Agents.NewAPIClient s = .ok c) := by
  refine ⟨rfl, rfl, rfl, rfl, rfl, rfl, ?_, ?_⟩
  · intro h1 h2 h3 h4 h5 h6
    simp [Agents.NewAPIClient, h1, h2, h3, h4, h5, h6]
  · unfold Agents.NewAPIClient
    repeat' split
    all_goals exact ⟨_, rfl⟩

/-- Witness for claim C8: an unknown provider name falls to the
OpenAI-compatible client. -/
theorem C8_provider_mapping_witness :
    Agents.NewAPIClient ("groq") = .ok .openaiCompatible :=
  (C8_provider_mapping ("groq")).2.2.2.2.2.2.1
    (by decide) (by decide) (by decide) (by decide) (by decide) (by decide)

/-- Claim C9: on an empty systemPrompt each provider applies its own
substitution: OpenAIClient and OpenAICompatibleClient substitute the
default assistant system message, GeminiClient sends the user prompt
unmodified (and otherwise prepends the system prompt followed by a blank
line), and AnthropicClient omits the system field from the payload
entirely. -/
theorem C9_empty_system_prompt (sys p : String) (hsys : sys ≠ "") :
    Agents.OpenAIClient.messages ("") p =
      [⟨"system", "You are a helpful assistant."⟩, ⟨"user", p⟩] ∧
    Agents.OpenAICompatibleClient.messages ("") p =
      [⟨"system", "You are a helpful assistant."⟩, ⟨"user", p⟩] ∧
    Agents.GeminiClient.fullPrompt ("") p = p ∧
    Agents.GeminiClient.fullPrompt sys p = sys ++ "\n\n" ++ p ∧
    Agents.AnthropicClient.systemField ("") = none ∧
    Agents.AnthropicClient.systemField sys = some sys := by
  refine ⟨?_, ?_, ?_, ?_, ?_, ?_⟩ <;>
    simp [Agents.OpenAIClient.messages, Agents.OpenAIClient.effectiveSystemPrompt,
      Agents.OpenAICompatibleClient.messages,
      Agents.OpenAICompatibleClient.effectiveSystemPrompt,
      Agents.GeminiClient.fullPrompt, Agents.AnthropicClient.systemField, hsys]

/-- Witness for claim C9: evaluated at a concrete non-empty system prompt
and user prompt. -/
theorem C9_empty_system_prompt_witness :
    Agents.GeminiClient.fullPrompt "Use Go conventions" "build a CRUD API" =
      "Use Go conventions" ++ "\n\n" ++ "build a CRUD API" ∧
    Agents.AnthropicClient.systemField "Use Go conventions" =
      some ("Use Go conventions") ∧
    Agents.OpenAIClient.messages ("") "build a CRUD API" =
      [⟨"system", "You are a helpful assistant."⟩, ⟨"user", "build a CRUD API"⟩] :=
  ⟨(C9_empty_system_prompt "Use Go conventions" "build a CRUD API" (by decide)).2.2.2.1,
   (C9_empty_system_prompt "Use Go conventions" "build a CRUD API" (by decide)).2.2.2.2.2,
   (C9_empty_system_prompt "Use Go conventions" "build a CRUD API" (by decide)).1⟩

/-- Claim C10: every provider Query is total on well-formed responses with
no generated content — a response carrying an error object or an empty
choices, candidates or content list yields an error value, never an index
into the empty list (totality holds by construction of the embedding, which
matches the explicit emptiness guards of the source) — and generated text
is returned only when at least one choice exists, namely the first one. -/
theorem C10_no_content_safety (s : Nat)
    (r1 : Agents.OpenAIClient.Response) (rg : Agents.GeminiClient.Response)
    (ra : Agents.AnthropicClient.Response)
    (rm rr rc : Agents.OpenAIClient.Response) :
    ((∀ m, r1.error = some m →
        Agents.OpenAIClient.handleResponse s (some r1) = .error ("API error: " ++ m)) ∧
     (r1.error = none → r1.choices = [] →
        Agents.OpenAIClient.handleResponse s (some r1) =
          .error ("no choices returned from API")) ∧
     (∀ txt, Agents.OpenAIClient.handleResponse s (some r1) = .ok txt →
        r1.error = none ∧ r1.choices.head? = some txt)) ∧
    ((∀ m, rg.error = some m →
        Agents.GeminiClient.handleResponse s (some rg) = .error ("API error: " ++ m)) ∧
     (rg.error = none → rg.candidates = [] →
        Agents.GeminiClient.handleResponse s (some rg) =
          .error ("no content returned from API")) ∧
     (∀ c rest, rg.error = none → rg.candidates = c :: rest → c.parts = [] →
        Agents.GeminiClient.handleResponse s (some rg) =
          .error ("no content returned from API")) ∧
     (∀ txt, Agents.GeminiClient.handleResponse s (some rg) = .ok txt →
        rg.error = none ∧
          (rg.candidates.head?.bind (fun c => c.parts.head?)) = some txt)) ∧
    ((∀ m, ra.error = some m →
        Agents.AnthropicClient.handleResponse s (some ra) = .error ("API error: " ++ m)) ∧
     (ra.error = none → ra.content = [] →
        Agents.AnthropicClient.handleResponse s (some ra) =
          .error ("no content returned from API")) ∧
     (∀ txt, Agents.AnthropicClient.handleResponse s (some ra) = .ok txt →
        ra.error = none ∧ ra.content.head? = some txt)) ∧
    ((∀ m, rm.error = some m →
        Agents.MistralClient.handleResponse s (some rm) = .error ("API error: " ++ m)) ∧
     (rm.error = none → rm.choices = [] →
        Agents.MistralClient.handleResponse s (some rm) =
          .error ("no choices returned from API")) ∧
     (∀ txt, Agents.MistralClient.handleResponse s (some rm) = .ok txt →
        rm.error = none ∧ rm.choices.head? = some txt)) ∧
    ((∀ m, rr.error = some m →
        Agents.OpenRouterClient.handleResponse s (some rr) = .error ("API error: " ++ m)) ∧
     (rr.error = none → rr.choices = [] →
        Agents.OpenRouterClient.handleResponse s (some rr) =
          .error ("no choices returned from API")) ∧
     (∀ txt, Agents.OpenRouterClient.handleResponse s (some rr) = .ok txt →
        rr.error = none ∧ rr.choices.head? = some txt)) ∧
    ((∀ m, rc.error = some m →
        Agents.OpenAICompatibleClient.handleResponse s (some rc) =
          .error ("API error: " ++ m)) ∧
     (rc.error = none → rc.choices = [] →
        Agents.OpenAICompatibleClient.handleResponse s (some rc) =
          .error ("no choices returned from API")) ∧
     (∀ txt, Agents.OpenAICompatibleClient.handleResponse s (some rc) = .ok txt →
        rc.error = none ∧ rc.choices.head? = some txt)) := by
  refine ⟨⟨?_, ?_, ?_⟩, ⟨?_, ?_, ?_, ?_⟩, ⟨?_, ?_, ?_⟩, ⟨?_, ?_, ?_⟩,
    ⟨?_, ?_, ?_⟩, ⟨?_, ?_, ?_⟩⟩
  · intro m hm
    simp [Agents.OpenAIClient.handleResponse, hm]
  · intro he hc
    simp [Agents.OpenAIClient.handleResponse, he, hc]
  · intro txt h
    cases herr : r1.error with
    | some m => simp [Agents.OpenAIClient.handleResponse, herr] at h
    | none =>
      cases hch : r1.choices with
      | nil => simp [Agents.OpenAIClient.handleResponse, herr, hch] at h
      | cons c rest =>
        simp [Agents.OpenAIClient.handleResponse, herr, hch] at h
        exact ⟨rfl, by simp [hch, h]⟩
  · intro m hm
    simp [Agents.GeminiClient.handleResponse, hm]
  · intro he hc
    simp [Agents.GeminiClient.handleResponse, he, hc]
  · intro c rest he hc hp
    simp [Agents.GeminiClient.handleResponse, he, hc, hp]
  · intro txt h
    cases herr : rg.error with
    | some m => simp [Agents.GeminiClient.handleResponse, herr] at h
    | none =>
      cases hch : rg.candidates with
      | nil => simp [Agents.GeminiClient.handleResponse, herr, hch] at h
      | cons c rest =>
        cases hp : c.parts with
        | nil => simp [Agents.GeminiClient.handleResponse, herr, hch, hp] at h
        | cons t ts =>
          simp [Agents.GeminiClient.handleResponse, herr, hch, hp] at h
          exact ⟨rfl, by simp [hch, hp, h]⟩
  · intro m hm
    simp [Agents.AnthropicClient.handleResponse, hm]
  · intro he hc
    simp [Agents.AnthropicClient.handleResponse, he, hc]
  · intro txt h
    cases herr : ra.error with
    | some m => simp [Agents.AnthropicClient.handleResponse, herr] at h
    | none =>
      cases hch : ra.content with
      | nil => simp [Agents.AnthropicClient.handleResponse, herr, hch] at h
      | cons c rest =>
        simp [Agents.AnthropicClient.handleResponse, herr, hch] at h
        exact ⟨rfl, by simp [hch, h]⟩
  · intro m hm
    simp [Agents.MistralClient.handleResponse, hm]
  · intro he hc
    simp [Agents.MistralClient.handleResponse, he, hc]
  · intro txt h
    cases herr : rm.error with
    | some m => simp [Agents.MistralClient.handleResponse, herr] at h
    | none =>
      cases hch : rm.choices with
      | nil => simp [Agents.MistralClient.handleResponse, herr, hch] at h
      | cons c rest =>
        simp [Agents.MistralClient.handleResponse, herr, hch] at h
        exact ⟨rfl, by simp [hch, h]⟩
  · intro m hm
    simp [Agents.OpenRouterClient.handleResponse, hm]
  · intro he hc
    simp [Agents.OpenRouterClient.handleResponse, he, hc]
  · intro txt h
    cases herr : rr.error with
    | some m => simp [Agents.OpenRouterClient.handleResponse, herr] at h
    | none =>
      cases hch : rr.choices with
      | nil => simp [Agents.OpenRouterClient.handleResponse, herr, hch] at h
      | cons c rest =>
        simp [Agents.OpenRouterClient.handleResponse, herr, hch] at h
        exact ⟨rfl, by simp [hch, h]⟩
  · intro m hm
    simp [Agents.OpenAICompatibleClient.handleResponse, hm]
  · intro he hc
    simp [Agents.OpenAICompatibleClient.handleResponse, he, hc]
  · intro txt h
    cases herr : rc.error with
    | some m => simp [Agents.OpenAICompatibleClient.handleResponse, herr] at h
    | none =>
      cases hch : rc.choices with
      | nil => simp [Agents.OpenAICompatibleClient.handleResponse, herr, hch] at h
      | cons c rest =>
        simp [Agents.OpenAICompatibleClient.handleResponse, herr, hch] at h
        exact ⟨rfl, by simp [hch, h]⟩

/-- Witness for claim C10: concrete no-content responses yield error
values, and a concrete one-choice response yields its first choice. -/
theorem C10_no_content_safety_witness :
    Agents.OpenAIClient.handleResponse 200 (some ⟨[], some ("server overloaded")⟩) =
      .error ("API error: server overloaded") ∧
    Agents.GeminiClient.handleResponse 200 (some ⟨[], none⟩) =
      .error ("no content returned from API") ∧
    ((⟨["generated text"], none⟩ : Agents.OpenAIClient.Response).error = none ∧
      (⟨["generated text"], none⟩ : Agents.OpenAIClient.Response).choices.head? =
        some ("generated text")) :=
  ⟨((C10_no_content_safety 200 ⟨[], some ("server overloaded")⟩ ⟨[], none⟩
      ⟨[], none⟩ ⟨[], none⟩ ⟨[], none⟩ ⟨[], none⟩).1.1) "server overloaded" rfl,
   ((C10_no_content_safety 200 ⟨[], some ("server overloaded")⟩ ⟨[], none⟩
      ⟨[], none⟩ ⟨[], none⟩ ⟨[], none⟩ ⟨[], none⟩).2.1.2.1) rfl rfl,
   ((C10_no_content_safety 200 ⟨["generated text"], none⟩ ⟨[], none⟩
      ⟨[], none⟩ ⟨[], none⟩ ⟨[], none⟩ ⟨[], none⟩).1.2.2) "generated text" rfl⟩
